import Mathlib

/-!
Shallow embedding of `src/ledc.rs` (LED Control peripheral abstraction).

The driver API (`ledc_timer_config`, `ledc_channel_config`,
`ledc_fade_func_install`, `ledc_set_duty_and_update`) is modelled as an
oracle `Driver` that, given the history of driver calls made so far and the
call being issued, returns the `esp_err_t` status code (0 = `ESP_OK`).
Process-wide state (`FADE_FUNC_INSTALLED` and the append-only log of driver
calls issued) is threaded explicitly through each operation; the mutex is
sequentialised (operations are atomic steps).
-/

namespace Ledc

/-- Fixed hpoint constant (`const HPOINT: u32 = 0`). -/
def HPOINT : Nat := 0

/-- The interrupt-disable variant of `ledc_intr_type_t`. -/
def ledc_intr_type_t_LEDC_INTR_DISABLE : Nat := 0

/-- The 8-bit variant of `ledc_timer_bit_t`. -/
def ledc_timer_bit_t_LEDC_TIMER_8_BIT : Nat := 8

/-- The auto-clock variant of `ledc_clk_cfg_t`. -/
def ledc_clk_cfg_t_LEDC_AUTO_CLK : Nat := 0

/-- The low-speed variant of `ledc_mode_t` (default in `TimerConfig`). -/
def ledc_mode_t_LEDC_LOW_SPEED_MODE : Nat := 0

/-- Argument record of `ledc_timer_config` (from `ledc_timer_config_t`). -/
structure ledc_timer_config_t where
  speed_mode : Nat
  timer_num : Nat
  duty_resolution : Nat
  freq_hz : Nat
  clk_cfg : Nat
deriving DecidableEq, Repr

/-- Argument record of `ledc_channel_config` (from `ledc_channel_config_t`). -/
structure ledc_channel_config_t where
  speed_mode : Nat
  channel : Nat
  timer_sel : Nat
  intr_type : Nat
  gpio_num : Int
  duty : Nat
  hpoint : Int
deriving DecidableEq, Repr

/-- One driver-API call, with its arguments. -/
inductive DriverCall where
  | ledc_timer_config (cfg : ledc_timer_config_t)
  | ledc_fade_func_install (flags : Int)
  | ledc_channel_config (cfg : ledc_channel_config_t)
  | ledc_set_duty_and_update (speed_mode : Nat) (channel : Nat) (duty : Nat) (hpoint : Nat)
deriving DecidableEq, Repr

/-- The error type produced by the `esp!` macro: a nonzero `esp_err_t` code. -/
structure EspError where
  code : Int
deriving DecidableEq, Repr

/-- One entry of the driver-call log: the call and whether it returned `ESP_OK`. -/
structure TraceEntry where
  call : DriverCall
  ok : Bool
deriving DecidableEq, Repr

/-- The driver oracle: given the call history and a call, the status code. -/
abbrev Driver := List TraceEntry → DriverCall → Int

/-- Process-wide state: the `FADE_FUNC_INSTALLED` flag and the call log. -/
structure GlobalState where
  fadeFuncInstalled : Bool
  trace : List TraceEntry
deriving DecidableEq, Repr

/-- Fresh process state: flag false (`Mutex::new(false)`), no calls issued. -/
def initState : GlobalState := ⟨false, []⟩

/-- Rust `config::TimerConfig { frequency, speed_mode }`. -/
structure TimerConfig where
  frequency : Nat
  speed_mode : Nat
deriving DecidableEq, Repr

/-- `impl Default for TimerConfig`: 1000 Hz, low speed mode. -/
def TimerConfig.default : TimerConfig :=
  { frequency := 1000, speed_mode := ledc_mode_t_LEDC_LOW_SPEED_MODE }

/-- Rust `Timer<T>`: the owned timer token (its `T::timer()` identity) and the
configured speed mode. -/
structure Timer where
  instance_ : Nat
  speed_mode : Nat
deriving DecidableEq, Repr

/-- The `ledc_timer_config_t` literal built by `Timer::new`. -/
def timer_config (tok : Nat) (config : TimerConfig) : ledc_timer_config_t :=
  { speed_mode := config.speed_mode
    timer_num := tok
    duty_resolution := ledc_timer_bit_t_LEDC_TIMER_8_BIT
    freq_hz := config.frequency
    clk_cfg := ledc_clk_cfg_t_LEDC_AUTO_CLK }

/-- `Timer::new`: issue one `ledc_timer_config` call; on `ESP_OK` produce the
Timer owning the token, otherwise propagate the error. -/
def Timer.new (d : Driver) (s : GlobalState) (tok : Nat) (config : TimerConfig) :
    GlobalState × Except EspError Timer :=
  let call := DriverCall.ledc_timer_config (timer_config tok config)
  let code := d s.trace call
  let s1 : GlobalState := { s with trace := s.trace ++ [⟨call, code == 0⟩] }
  if code = 0 then (s1, .ok { instance_ := tok, speed_mode := config.speed_mode })
  else (s1, .error ⟨code⟩)

/-- `Timer::release`: `Ok(self.instance)`, no driver call. -/
def Timer.release (s : GlobalState) (t : Timer) : GlobalState × Except EspError Nat :=
  (s, .ok t.instance_)

/-- Rust `Channel<'a, C, T, P>`: channel token identity (`C::channel()`), the
borrowed timer (immutable, copied into the model), the owned pin (its
`pin()` identity) and the cached duty. -/
structure Channel where
  instance_ : Nat
  timer : Timer
  pin : Int
  duty : Nat
deriving DecidableEq, Repr

/-- The `ledc_channel_config_t` literal built by `Channel::new`
(with `duty = 0u8` and `hpoint = HPOINT as i32`). -/
def channel_config (timer : Timer) (tok : Nat) (pin : Int) : ledc_channel_config_t :=
  { speed_mode := timer.speed_mode
    channel := tok
    timer_sel := timer.instance_
    intr_type := ledc_intr_type_t_LEDC_INTR_DISABLE
    gpio_num := pin
    duty := 0
    hpoint := (HPOINT : Int) }

/-- `Channel::new`: under the `FADE_FUNC_INSTALLED` lock, install the fade
function if the flag is false (setting the flag on success, propagating the
error otherwise); then issue `ledc_channel_config`; on `ESP_OK` produce the
Channel with cached duty 0. -/
def Channel.new (d : Driver) (s : GlobalState) (tok : Nat) (timer : Timer) (pin : Int) :
    GlobalState × Except EspError Channel :=
  let configure : GlobalState → GlobalState × Except EspError Channel := fun s1 =>
    let call := DriverCall.ledc_channel_config (channel_config timer tok pin)
    let code := d s1.trace call
    let s2 : GlobalState := { s1 with trace := s1.trace ++ [⟨call, code == 0⟩] }
    if code = 0 then (s2, .ok { instance_ := tok, timer := timer, pin := pin, duty := 0 })
    else (s2, .error ⟨code⟩)
  if s.fadeFuncInstalled then
    configure s
  else
    let code := d s.trace (.ledc_fade_func_install 0)
    let s1 : GlobalState :=
      { s with trace := s.trace ++ [⟨.ledc_fade_func_install 0, code == 0⟩] }
    if code = 0 then configure { s1 with fadeFuncInstalled := true }
    else (s1, .error ⟨code⟩)

/-- `Channel::release`: `Ok((self.instance, self.pin))`, no driver call. -/
def Channel.release (s : GlobalState) (c : Channel) :
    GlobalState × Except EspError (Nat × Int) :=
  (s, .ok (c.instance_, c.pin))

/-- `Channel::update_duty`: one `ledc_set_duty_and_update` call with the
timer's speed mode, the channel identity, the given duty and `HPOINT`. -/
def Channel.update_duty (d : Driver) (s : GlobalState) (c : Channel) (duty : Nat) :
    GlobalState × Except EspError Unit :=
  let call := DriverCall.ledc_set_duty_and_update c.timer.speed_mode c.instance_ duty HPOINT
  let code := d s.trace call
  ({ s with trace := s.trace ++ [⟨call, code == 0⟩] },
   if code = 0 then .ok () else .error ⟨code⟩)

/-- `PwmPin::disable`: `self.update_duty(0)?`; the channel fields are untouched. -/
def Channel.disable (d : Driver) (s : GlobalState) (c : Channel) :
    GlobalState × Channel × Except EspError Unit :=
  let r := Channel.update_duty d s c 0
  (r.1, c, r.2)

/-- `PwmPin::enable`: `self.update_duty(self.duty)?`; the channel fields are
untouched. -/
def Channel.enable (d : Driver) (s : GlobalState) (c : Channel) :
    GlobalState × Channel × Except EspError Unit :=
  let r := Channel.update_duty d s c c.duty
  (r.1, c, r.2)

/-- `PwmPin::get_duty`: `Ok(self.duty)`, no driver call. -/
def Channel.get_duty (s : GlobalState) (c : Channel) :
    GlobalState × Except EspError Nat :=
  (s, .ok c.duty)

/-- `PwmPin::get_max_duty`: `Ok(Duty::MAX)` where `Duty = u8`. -/
def Channel.get_max_duty (s : GlobalState) (c : Channel) :
    GlobalState × Except EspError Nat :=
  (s, .ok 255)

/-- `PwmPin::set_duty`: write the cache first (`self.duty = duty`), then
commit via `update_duty(duty)?`. -/
def Channel.set_duty (d : Driver) (s : GlobalState) (c : Channel) (duty : Nat) :
    GlobalState × Channel × Except EspError Unit :=
  let c1 : Channel := { c with duty := duty }
  let r := Channel.update_duty d s c1 duty
  (r.1, c1, r.2)

/-- One `Channel::new` request: channel token, timer reference, pin. -/
structure NewReq where
  tok : Nat
  timer : Timer
  pin : Int
deriving DecidableEq, Repr

/-- Run a sequence of `Channel::new` calls, threading the process state. -/
def runNews (d : Driver) (s : GlobalState) (reqs : List NewReq) : GlobalState :=
  match reqs with
  | [] => s
  | r :: rest => runNews d (Channel.new d s r.tok r.timer r.pin).1 rest

/-- Whether a log entry is a `ledc_fade_func_install` invocation. -/
def TraceEntry.isFadeInstall (e : TraceEntry) : Bool :=
  match e.call with
  | .ledc_fade_func_install _ => true
  | _ => false

/-- Whether a log entry is a `ledc_channel_config` invocation. -/
def TraceEntry.isChannelConfig (e : TraceEntry) : Bool :=
  match e.call with
  | .ledc_channel_config _ => true
  | _ => false

/-- Number of `ledc_fade_func_install` invocations in a log. -/
def fadeInstallCount (tr : List TraceEntry) : Nat :=
  (tr.filter TraceEntry.isFadeInstall).length

/-- Number of successful `ledc_fade_func_install` invocations in a log. -/
def fadeOkCount (tr : List TraceEntry) : Nat :=
  (tr.filter (fun e => e.isFadeInstall && e.ok)).length

/-- A driver double for which every call returns `ESP_OK`. -/
def dAllOk : Driver := fun _ _ => 0

/-- A driver double failing every `ledc_fade_func_install` call. -/
def dFadeFail : Driver := fun _ c =>
  match c with
  | .ledc_fade_func_install _ => 1
  | _ => 0

/-- A driver double failing every `ledc_set_duty_and_update` call. -/
def dCommitFail : Driver := fun _ c =>
  match c with
  | .ledc_set_duty_and_update _ _ _ _ => 1
  | _ => 0

/-- A driver double succeeding fade installation but failing channel
configuration. -/
def dChanFail : Driver := fun _ c =>
  match c with
  | .ledc_channel_config _ => 1
  | _ => 0

/-- A concrete timer value for witnesses. -/
def tm0 : Timer := { instance_ := 0, speed_mode := 0 }

/-- A concrete channel value for witnesses. -/
def ch0 : Channel := { instance_ := 0, timer := tm0, pin := 1, duty := 0 }

/-- A process state whose fade flag is already set. -/
def sInstalled : GlobalState := ⟨true, []⟩

lemma fadeInstallCount_append (t1 t2 : List TraceEntry) :
    fadeInstallCount (t1 ++ t2) = fadeInstallCount t1 + fadeInstallCount t2 := by
  simp [fadeInstallCount, List.filter_append]

lemma fadeOkCount_append (t1 t2 : List TraceEntry) :
    fadeOkCount (t1 ++ t2) = fadeOkCount t1 + fadeOkCount t2 := by
  simp [fadeOkCount, List.filter_append]

@[simp] lemma isFadeInstall_fade (flags : Int) (b : Bool) :
    TraceEntry.isFadeInstall ⟨.ledc_fade_func_install flags, b⟩ = true := rfl

@[simp] lemma isFadeInstall_chan (cfg : ledc_channel_config_t) (b : Bool) :
    TraceEntry.isFadeInstall ⟨.ledc_channel_config cfg, b⟩ = false := rfl

@[simp] lemma isChannelConfig_fade (flags : Int) (b : Bool) :
    TraceEntry.isChannelConfig ⟨.ledc_fade_func_install flags, b⟩ = false := rfl

@[simp] lemma isChannelConfig_chan (cfg : ledc_channel_config_t) (b : Bool) :
    TraceEntry.isChannelConfig ⟨.ledc_channel_config cfg, b⟩ = true := rfl

lemma Channel.new_flagTrue (d : Driver) (s : GlobalState) (tok : Nat) (tm : Timer)
    (pin : Int) (hf : s.fadeFuncInstalled = true) :
    Channel.new d s tok tm pin =
      ({ s with trace := s.trace ++
          [⟨.ledc_channel_config (channel_config tm tok pin),
            d s.trace (.ledc_channel_config (channel_config tm tok pin)) == 0⟩] },
       if d s.trace (.ledc_channel_config (channel_config tm tok pin)) = 0
       then .ok { instance_ := tok, timer := tm, pin := pin, duty := 0 }
       else .error ⟨d s.trace (.ledc_channel_config (channel_config tm tok pin))⟩) := by
  simp only [Channel.new, hf, if_true]
  split <;> simp_all

lemma Channel.new_flagFalse_fadeOk (d : Driver) (s : GlobalState) (tok : Nat) (tm : Timer)
    (pin : Int) (hf : s.fadeFuncInstalled = false)
    (hok : d s.trace (.ledc_fade_func_install 0) = 0) :
    Channel.new d s tok tm pin =
      ({ fadeFuncInstalled := true,
         trace := (s.trace ++ [⟨.ledc_fade_func_install 0, true⟩]) ++
          [⟨.ledc_channel_config (channel_config tm tok pin),
            d (s.trace ++ [⟨.ledc_fade_func_install 0, true⟩])
              (.ledc_channel_config (channel_config tm tok pin)) == 0⟩] },
       if d (s.trace ++ [⟨.ledc_fade_func_install 0, true⟩])
            (.ledc_channel_config (channel_config tm tok pin)) = 0
       then .ok { instance_ := tok, timer := tm, pin := pin, duty := 0 }
       else .error ⟨d (s.trace ++ [⟨.ledc_fade_func_install 0, true⟩])
              (.ledc_channel_config (channel_config tm tok pin))⟩) := by
  simp [Channel.new, hf, hok]
  split <;> simp_all

lemma Channel.new_flagFalse_fadeFail (d : Driver) (s : GlobalState) (tok : Nat) (tm : Timer)
    (pin : Int) (hf : s.fadeFuncInstalled = false)
    (hfail : d s.trace (.ledc_fade_func_install 0) ≠ 0) :
    Channel.new d s tok tm pin =
      ({ s with trace := s.trace ++ [⟨.ledc_fade_func_install 0, false⟩] },
       .error ⟨d s.trace (.ledc_fade_func_install 0)⟩) := by
  have hb : (d s.trace (.ledc_fade_func_install 0) == 0) = false :=
    beq_eq_false_iff_ne.mpr hfail
  simp [Channel.new, hf, hfail, hb]

lemma Channel.new_flag_flagTrue (d : Driver) (s : GlobalState) (tok : Nat) (tm : Timer)
    (pin : Int) (hf : s.fadeFuncInstalled = true) :
    (Channel.new d s tok tm pin).1.fadeFuncInstalled = true := by
  rw [Channel.new_flagTrue d s tok tm pin hf]
  exact hf

lemma Channel.new_flag_flagFalse_fadeOk (d : Driver) (s : GlobalState) (tok : Nat)
    (tm : Timer) (pin : Int) (hf : s.fadeFuncInstalled = false)
    (hok : d s.trace (.ledc_fade_func_install 0) = 0) :
    (Channel.new d s tok tm pin).1.fadeFuncInstalled = true := by
  rw [Channel.new_flagFalse_fadeOk d s tok tm pin hf hok]

lemma Channel.new_flag_flagFalse_fadeFail (d : Driver) (s : GlobalState) (tok : Nat)
    (tm : Timer) (pin : Int) (hf : s.fadeFuncInstalled = false)
    (hfail : d s.trace (.ledc_fade_func_install 0) ≠ 0) :
    (Channel.new d s tok tm pin).1.fadeFuncInstalled = false := by
  rw [Channel.new_flagFalse_fadeFail d s tok tm pin hf hfail]
  exact hf

lemma Channel.new_fadeInstallCount_flagTrue (d : Driver) (s : GlobalState) (tok : Nat)
    (tm : Timer) (pin : Int) (hf : s.fadeFuncInstalled = true) :
    fadeInstallCount (Channel.new d s tok tm pin).1.trace = fadeInstallCount s.trace := by
  rw [Channel.new_flagTrue d s tok tm pin hf]
  simp [fadeInstallCount_append, fadeInstallCount]

lemma Channel.new_fadeInstallCount_flagFalse (d : Driver) (s : GlobalState) (tok : Nat)
    (tm : Timer) (pin : Int) (hf : s.fadeFuncInstalled = false) :
    fadeInstallCount (Channel.new d s tok tm pin).1.trace = fadeInstallCount s.trace + 1 := by
  by_cases hok : d s.trace (.ledc_fade_func_install 0) = 0
  · rw [Channel.new_flagFalse_fadeOk d s tok tm pin hf hok]
    simp [fadeInstallCount_append, fadeInstallCount]
  · rw [Channel.new_flagFalse_fadeFail d s tok tm pin hf hok]
    simp [fadeInstallCount_append, fadeInstallCount]

lemma Channel.new_fadeOkCount_flagTrue (d : Driver) (s : GlobalState) (tok : Nat)
    (tm : Timer) (pin : Int) (hf : s.fadeFuncInstalled = true) :
    fadeOkCount (Channel.new d s tok tm pin).1.trace = fadeOkCount s.trace := by
  rw [Channel.new_flagTrue d s tok tm pin hf]
  simp [fadeOkCount_append, fadeOkCount]

lemma Channel.new_fadeOkCount_flagFalse_fadeOk (d : Driver) (s : GlobalState) (tok : Nat)
    (tm : Timer) (pin : Int) (hf : s.fadeFuncInstalled = false)
    (hok : d s.trace (.ledc_fade_func_install 0) = 0) :
    fadeOkCount (Channel.new d s tok tm pin).1.trace = fadeOkCount s.trace + 1 := by
  rw [Channel.new_flagFalse_fadeOk d s tok tm pin hf hok]
  simp [fadeOkCount_append, fadeOkCount]

lemma Channel.new_fadeOkCount_flagFalse_fadeFail (d : Driver) (s : GlobalState) (tok : Nat)
    (tm : Timer) (pin : Int) (hf : s.fadeFuncInstalled = false)
    (hfail : d s.trace (.ledc_fade_func_install 0) ≠ 0) :
    fadeOkCount (Channel.new d s tok tm pin).1.trace = fadeOkCount s.trace := by
  rw [Channel.new_flagFalse_fadeFail d s tok tm pin hf hfail]
  simp [fadeOkCount_append, fadeOkCount]

/-- Inductive invariant tying the fade flag to the number of successful
fade-install calls in the log. -/
def FadeInv (s : GlobalState) : Prop :=
  fadeOkCount s.trace = if s.fadeFuncInstalled then 1 else 0

lemma FadeInv_init : FadeInv initState := by
  simp [FadeInv, initState, fadeOkCount]

lemma FadeInv_new (d : Driver) (s : GlobalState) (tok : Nat) (tm : Timer) (pin : Int)
    (h : FadeInv s) : FadeInv (Channel.new d s tok tm pin).1 := by
  unfold FadeInv at h ⊢
  cases hf : s.fadeFuncInstalled with
  | true =>
    rw [Channel.new_fadeOkCount_flagTrue d s tok tm pin hf,
      Channel.new_flag_flagTrue d s tok tm pin hf]
    simpa [hf] using h
  | false =>
    by_cases hok : d s.trace (.ledc_fade_func_install 0) = 0
    · rw [Channel.new_fadeOkCount_flagFalse_fadeOk d s tok tm pin hf hok,
        Channel.new_flag_flagFalse_fadeOk d s tok tm pin hf hok]
      simp [hf] at h
      simp [h]
    · rw [Channel.new_fadeOkCount_flagFalse_fadeFail d s tok tm pin hf hok,
        Channel.new_flag_flagFalse_fadeFail d s tok tm pin hf hok]
      simpa [hf] using h

lemma FadeInv_runNews (d : Driver) (reqs : List NewReq) :
    ∀ s : GlobalState, FadeInv s → FadeInv (runNews d s reqs) := by
  induction reqs with
  | nil => intro s h; exact h
  | cons r rest ih =>
    intro s h
    exact ih _ (FadeInv_new d s r.tok r.timer r.pin h)

lemma Timer.new_ok_instance (d : Driver) (s : GlobalState) (tok : Nat) (cfg : TimerConfig)
    (t : Timer) (h : (Timer.new d s tok cfg).2 = .ok t) : t.instance_ = tok := by
  unfold Timer.new at h
  by_cases hc : d s.trace (.ledc_timer_config (timer_config tok cfg)) = 0
  · simp [hc] at h
    simp [← h]
  · simp [hc] at h

/-- C1: across every sequence of `Channel::new` calls from the fresh process
state, `ledc_fade_func_install` succeeds at most once; it is never invoked
when the fade flag is already true (and then the flag stays true, so no later
`Channel::new` invokes it); and a successful invocation sets the flag. -/
theorem c1_fade_func_install_at_most_once :
    (∀ (d : Driver) (reqs : List NewReq),
        fadeOkCount (runNews d initState reqs).trace ≤ 1) ∧
    (∀ (d : Driver) (s : GlobalState) (tok : Nat) (tm : Timer) (pin : Int),
        s.fadeFuncInstalled = true →
          fadeInstallCount (Channel.new d s tok tm pin).1.trace = fadeInstallCount s.trace ∧
          (Channel.new d s tok tm pin).1.fadeFuncInstalled = true) ∧
    (∀ (d : Driver) (s : GlobalState) (tok : Nat) (tm : Timer) (pin : Int),
        s.fadeFuncInstalled = false → d s.trace (.ledc_fade_func_install 0) = 0 →
          (Channel.new d s tok tm pin).1.fadeFuncInstalled = true) := by
  refine ⟨?_, ?_, ?_⟩
  · intro d reqs
    have h := FadeInv_runNews d reqs initState FadeInv_init
    unfold FadeInv at h
    rw [h]
    split <;> simp
  · intro d s tok tm pin hf
    exact ⟨Channel.new_fadeInstallCount_flagTrue d s tok tm pin hf,
      Channel.new_flag_flagTrue d s tok tm pin hf⟩
  · intro d s tok tm pin hf hok
    exact Channel.new_flag_flagFalse_fadeOk d s tok tm pin hf hok

/-- C1 witness at concrete inputs. -/
theorem c1_fade_func_install_at_most_once_witness :
    fadeOkCount (runNews dAllOk initState [⟨0, tm0, 1⟩, ⟨1, tm0, 2⟩]).trace ≤ 1 ∧
    fadeInstallCount (Channel.new dAllOk sInstalled 0 tm0 1).1.trace
        = fadeInstallCount sInstalled.trace ∧
    (Channel.new dAllOk initState 0 tm0 1).1.fadeFuncInstalled = true :=
  ⟨c1_fade_func_install_at_most_once.1 dAllOk [⟨0, tm0, 1⟩, ⟨1, tm0, 2⟩],
   (c1_fade_func_install_at_most_once.2.1 dAllOk sInstalled 0 tm0 1 rfl).1,
   c1_fade_func_install_at_most_once.2.2 dAllOk initState 0 tm0 1 rfl rfl⟩

/-- C2: for duty values in [0, 255], `set_duty(v)` followed by `get_duty()`
returns `v` whatever the commit outcome, and `get_duty` leaves the process
state untouched (no hardware access) and always returns `Ok`. -/
theorem c2_set_duty_get_duty_roundtrip :
    ∀ (d : Driver) (s : GlobalState) (c : Channel) (v : Nat), v ≤ 255 →
      Channel.get_duty (Channel.set_duty d s c v).1 (Channel.set_duty d s c v).2.1
          = ((Channel.set_duty d s c v).1, .ok v) ∧
      (∀ (s2 : GlobalState) (c2 : Channel),
        Channel.get_duty s2 c2 = (s2, .ok c2.duty)) := by
  intro d s c v _
  exact ⟨rfl, fun s2 c2 => rfl⟩

/-- C2 witness at concrete inputs (a failing commit driver double). -/
theorem c2_set_duty_get_duty_roundtrip_witness :
    Channel.get_duty (Channel.set_duty dCommitFail initState ch0 7).1
        (Channel.set_duty dCommitFail initState ch0 7).2.1
      = ((Channel.set_duty dCommitFail initState ch0 7).1, .ok 7) ∧
    Channel.get_duty initState ch0 = (initState, .ok ch0.duty) :=
  ⟨(c2_set_duty_get_duty_roundtrip dCommitFail initState ch0 7 (by decide)).1,
   (c2_set_duty_get_duty_roundtrip dCommitFail initState ch0 7 (by decide)).2 initState ch0⟩

/-- C4: when the duty commit fails, `set_duty` returns the `DriverError` but
the cached duty has already been updated (no rollback). -/
theorem c4_set_duty_failure_cache_updated :
    ∀ (d : Driver) (s : GlobalState) (c : Channel) (v : Nat),
      d s.trace (.ledc_set_duty_and_update c.timer.speed_mode c.instance_ v HPOINT) ≠ 0 →
        (Channel.set_duty d s c v).2.2
            = .error ⟨d s.trace
                (.ledc_set_duty_and_update c.timer.speed_mode c.instance_ v HPOINT)⟩ ∧
        (Channel.set_duty d s c v).2.1 = { c with duty := v } := by
  intro d s c v hfail
  constructor
  · simp [Channel.set_duty, Channel.update_duty, hfail]
  · rfl

/-- C4 witness at concrete inputs. -/
theorem c4_set_duty_failure_cache_updated_witness :
    (Channel.set_duty dCommitFail initState ch0 9).2.2 = .error ⟨1⟩ ∧
    (Channel.set_duty dCommitFail initState ch0 9).2.1 = { ch0 with duty := 9 } :=
  c4_set_duty_failure_cache_updated dCommitFail initState ch0 9 (by decide)

/-- C5: a failing fade activation makes `Channel::new` return the error with
the flag left false, and any later `Channel::new` attempts activation again. -/
theorem c5_fade_failure_retry :
    ∀ (d : Driver) (s : GlobalState) (tok : Nat) (tm : Timer) (pin : Int),
      s.fadeFuncInstalled = false →
      d s.trace (.ledc_fade_func_install 0) ≠ 0 →
        (Channel.new d s tok tm pin).2 = .error ⟨d s.trace (.ledc_fade_func_install 0)⟩ ∧
        (Channel.new d s tok tm pin).1.fadeFuncInstalled = false ∧
        (∀ (d2 : Driver) (tok2 : Nat) (tm2 : Timer) (pin2 : Int),
          fadeInstallCount
              (Channel.new d2 (Channel.new d s tok tm pin).1 tok2 tm2 pin2).1.trace
            = fadeInstallCount (Channel.new d s tok tm pin).1.trace + 1) := by
  intro d s tok tm pin hf hfail
  refine ⟨?_, Channel.new_flag_flagFalse_fadeFail d s tok tm pin hf hfail, ?_⟩
  · rw [Channel.new_flagFalse_fadeFail d s tok tm pin hf hfail]
  · intro d2 tok2 tm2 pin2
    exact Channel.new_fadeInstallCount_flagFalse d2 _ tok2 tm2 pin2
      (Channel.new_flag_flagFalse_fadeFail d s tok tm pin hf hfail)

/-- C5 witness at concrete inputs (a fade-failing double, then a succeeding one). -/
theorem c5_fade_failure_retry_witness :
    (Channel.new dFadeFail initState 0 tm0 1).2 = .error ⟨1⟩ ∧
    (Channel.new dFadeFail initState 0 tm0 1).1.fadeFuncInstalled = false ∧
    fadeInstallCount
        (Channel.new dAllOk (Channel.new dFadeFail initState 0 tm0 1).1 0 tm0 1).1.trace
      = fadeInstallCount (Channel.new dFadeFail initState 0 tm0 1).1.trace + 1 := by
  have h := c5_fade_failure_retry dFadeFail initState 0 tm0 1 rfl (by decide)
  exact ⟨h.1, h.2.1, h.2.2 dAllOk 0 tm0 1⟩

/-- C7: `disable` commits duty 0 leaving every channel field (including the
cached duty) unchanged, `enable` commits the cached duty leaving the channel
unchanged, and after `set_duty(v)` then `disable`, a subsequent `enable`
commits `v`. -/
theorem c7_disable_enable_preserve_cache :
    ∀ (d : Driver) (s : GlobalState) (c : Channel),
      (Channel.disable d s c).2.1 = c ∧
      (Channel.disable d s c).1.trace = s.trace ++
        [⟨.ledc_set_duty_and_update c.timer.speed_mode c.instance_ 0 HPOINT,
          d s.trace (.ledc_set_duty_and_update c.timer.speed_mode c.instance_ 0 HPOINT)
            == 0⟩] ∧
      (Channel.enable d s c).2.1 = c ∧
      (Channel.enable d s c).1.trace = s.trace ++
        [⟨.ledc_set_duty_and_update c.timer.speed_mode c.instance_ c.duty HPOINT,
          d s.trace (.ledc_set_duty_and_update c.timer.speed_mode c.instance_ c.duty HPOINT)
            == 0⟩] ∧
      (∀ (v : Nat),
        (Channel.enable d
            (Channel.disable d (Channel.set_duty d s c v).1
              (Channel.set_duty d s c v).2.1).1
            (Channel.disable d (Channel.set_duty d s c v).1
              (Channel.set_duty d s c v).2.1).2.1).1.trace
          = (Channel.disable d (Channel.set_duty d s c v).1
              (Channel.set_duty d s c v).2.1).1.trace ++
            [⟨.ledc_set_duty_and_update c.timer.speed_mode c.instance_ v HPOINT,
              d (Channel.disable d (Channel.set_duty d s c v).1
                  (Channel.set_duty d s c v).2.1).1.trace
                (.ledc_set_duty_and_update c.timer.speed_mode c.instance_ v HPOINT)
                == 0⟩]) := by
  intro d s c
  exact ⟨rfl, rfl, rfl, rfl, fun v => rfl⟩

/-- C9: `get_max_duty` returns `Ok(255)` for every channel and state. -/
theorem c9_get_max_duty_const :
    ∀ (s : GlobalState) (c : Channel), Channel.get_max_duty s c = (s, .ok 255) := by
  intro s c
  rfl

/-- C8: `Timer::release` always returns `Ok` with the timer's token, leaving
the process state untouched (no hardware call); for a Timer obtained from
`Timer::new`, the returned token is exactly the one handed to `new`. -/
theorem c8_timer_release_token :
    (∀ (s : GlobalState) (t : Timer), Timer.release s t = (s, .ok t.instance_)) ∧
    (∀ (d : Driver) (s0 : GlobalState) (tok : Nat) (cfg : TimerConfig) (t : Timer),
      (Timer.new d s0 tok cfg).2 = .ok t →
        ∀ (s1 : GlobalState), Timer.release s1 t = (s1, .ok tok)) := by
  constructor
  · intro s t
    rfl
  · intro d s0 tok cfg t h s1
    rw [Timer.release, Timer.new_ok_instance d s0 tok cfg t h]

/-- C8 witness at concrete inputs. -/
theorem c8_timer_release_token_witness :
    Timer.release initState tm0 = (initState, .ok tm0.instance_) ∧
    Timer.release initState ⟨2, 0⟩ = (initState, .ok 2) :=
  ⟨c8_timer_release_token.1 initState tm0,
   c8_timer_release_token.2 dAllOk initState 2 TimerConfig.default ⟨2, 0⟩ rfl initState⟩

lemma channel_config_eq (tm : Timer) (tok : Nat) (pin : Int) :
    ({ speed_mode := tm.speed_mode
       channel := tok
       timer_sel := tm.instance_
       intr_type := ledc_intr_type_t_LEDC_INTR_DISABLE
       gpio_num := pin
       duty := 0
       hpoint := (HPOINT : Int) } : ledc_channel_config_t)
      = channel_config tm tok pin := rfl

lemma Channel.new_ok_value (d : Driver) (s : GlobalState) (tok : Nat) (tm : Timer)
    (pin : Int) (c : Channel) (h : (Channel.new d s tok tm pin).2 = .ok c) :
    c = { instance_ := tok, timer := tm, pin := pin, duty := 0 } := by
  cases hf : s.fadeFuncInstalled with
  | true =>
    rw [Channel.new_flagTrue d s tok tm pin hf] at h
    by_cases hc : d s.trace (.ledc_channel_config (channel_config tm tok pin)) = 0
    · simp [hc] at h
      simp [← h]
    · simp [hc] at h
  | false =>
    by_cases hok : d s.trace (.ledc_fade_func_install 0) = 0
    · rw [Channel.new_flagFalse_fadeOk d s tok tm pin hf hok] at h
      by_cases hc : d (s.trace ++ [⟨.ledc_fade_func_install 0, true⟩])
          (.ledc_channel_config (channel_config tm tok pin)) = 0
      · simp [hc] at h
        simp [← h]
      · simp [hc] at h
    · rw [Channel.new_flagFalse_fadeFail d s tok tm pin hf hok] at h
      simp at h

/-- C3 counterexample: with a driver double that succeeds fade activation but
fails channel configuration, `Channel::new` returns a `DriverError` while the
process-wide fade flag has changed from false to true — so the claim that no
observable state (in particular the fade flag) changes on failure is false. -/
theorem c3_counterexample :
    (Channel.new dChanFail initState 0 tm0 1).2 = .error ⟨1⟩ ∧
    initState.fadeFuncInstalled = false ∧
    (Channel.new dChanFail initState 0 tm0 1).1.fadeFuncInstalled = true :=
  ⟨rfl, rfl, rfl⟩

/-- C3 (amended): if any driver call during `Channel::new` fails, `new`
returns the `DriverError` and no Channel value is produced; the fade flag
keeps its prior value except that it has changed from false to true when the
fade activation succeeded before a later driver call failed. -/
theorem c3_new_failure_no_channel :
    ∀ (d : Driver) (s : GlobalState) (tok : Nat) (tm : Timer) (pin : Int) (e : EspError),
      (Channel.new d s tok tm pin).2 = .error e →
        (∀ c : Channel, (Channel.new d s tok tm pin).2 ≠ .ok c) ∧
        ((Channel.new d s tok tm pin).1.fadeFuncInstalled = s.fadeFuncInstalled ∨
         (s.fadeFuncInstalled = false ∧
          (Channel.new d s tok tm pin).1.fadeFuncInstalled = true ∧
          fadeOkCount (Channel.new d s tok tm pin).1.trace = fadeOkCount s.trace + 1)) := by
  intro d s tok tm pin e herr
  constructor
  · intro c hc
    rw [herr] at hc
    exact Except.noConfusion hc
  · cases hf : s.fadeFuncInstalled with
    | true =>
      left
      rw [Channel.new_flag_flagTrue d s tok tm pin hf]
    | false =>
      by_cases hok : d s.trace (.ledc_fade_func_install 0) = 0
      · right
        exact ⟨rfl, Channel.new_flag_flagFalse_fadeOk d s tok tm pin hf hok,
          Channel.new_fadeOkCount_flagFalse_fadeOk d s tok tm pin hf hok⟩
      · left
        rw [Channel.new_flag_flagFalse_fadeFail d s tok tm pin hf hok]

/-- C3 witness at concrete inputs. -/
theorem c3_new_failure_no_channel_witness :
    (Channel.new dChanFail initState 0 tm0 1).1.fadeFuncInstalled
        = initState.fadeFuncInstalled ∨
      (initState.fadeFuncInstalled = false ∧
       (Channel.new dChanFail initState 0 tm0 1).1.fadeFuncInstalled = true ∧
       fadeOkCount (Channel.new dChanFail initState 0 tm0 1).1.trace
         = fadeOkCount initState.trace + 1) :=
  (c3_new_failure_no_channel dChanFail initState 0 tm0 1 ⟨1⟩ rfl).2

/-- C6: a successful `Channel::new` issues exactly one `ledc_channel_config`
call, carrying the timer's speed mode, the token's channel identity, the
timer's timer identity, interrupts disabled, the pin's gpio number, duty 0
and hpoint 0. -/
theorem c6_new_channel_config_args :
    ∀ (d : Driver) (s : GlobalState) (tok : Nat) (tm : Timer) (pin : Int) (c : Channel),
      (Channel.new d s tok tm pin).2 = .ok c →
        ((Channel.new d s tok tm pin).1.trace.drop s.trace.length).filter
            TraceEntry.isChannelConfig =
          [⟨.ledc_channel_config
              { speed_mode := tm.speed_mode
                channel := tok
                timer_sel := tm.instance_
                intr_type := ledc_intr_type_t_LEDC_INTR_DISABLE
                gpio_num := pin
                duty := 0
                hpoint := (HPOINT : Int) }, true⟩] := by
  intro d s tok tm pin c h
  cases hf : s.fadeFuncInstalled with
  | true =>
    rw [Channel.new_flagTrue d s tok tm pin hf] at h ⊢
    rw [channel_config_eq]
    by_cases hc : d s.trace (.ledc_channel_config (channel_config tm tok pin)) = 0
    · simp [hc, List.drop_left]
    · simp [hc] at h
  | false =>
    by_cases hok : d s.trace (.ledc_fade_func_install 0) = 0
    · rw [Channel.new_flagFalse_fadeOk d s tok tm pin hf hok] at h ⊢
      rw [channel_config_eq]
      by_cases hc : d (s.trace ++ [⟨.ledc_fade_func_install 0, true⟩])
          (.ledc_channel_config (channel_config tm tok pin)) = 0
      · simp [hc, List.append_assoc, List.drop_left]
      · simp [hc] at h
    · rw [Channel.new_flagFalse_fadeFail d s tok tm pin hf hok] at h
      exact Except.noConfusion h

/-- C6 witness at concrete inputs. -/
theorem c6_new_channel_config_args_witness :
    ((Channel.new dAllOk initState 0 tm0 1).1.trace.drop initState.trace.length).filter
        TraceEntry.isChannelConfig =
      [⟨.ledc_channel_config
          { speed_mode := tm0.speed_mode
            channel := 0
            timer_sel := tm0.instance_
            intr_type := ledc_intr_type_t_LEDC_INTR_DISABLE
            gpio_num := 1
            duty := 0
            hpoint := (HPOINT : Int) }, true⟩] :=
  c6_new_channel_config_args dAllOk initState 0 tm0 1 ⟨0, tm0, 1, 0⟩ rfl

/-- C10: right after a successful `Channel::new` the cached duty is 0:
`get_duty` returns `Ok(0)`, and an `enable` issued before any `set_duty`
commits duty 0 to hardware. -/
theorem c10_new_cached_duty_zero :
    ∀ (d : Driver) (s : GlobalState) (tok : Nat) (tm : Timer) (pin : Int) (c : Channel),
      (Channel.new d s tok tm pin).2 = .ok c →
        c.duty = 0 ∧
        (∀ s2 : GlobalState, Channel.get_duty s2 c = (s2, .ok 0)) ∧
        (∀ (d2 : Driver) (s2 : GlobalState),
          (Channel.enable d2 s2 c).1.trace = s2.trace ++
            [⟨.ledc_set_duty_and_update c.timer.speed_mode c.instance_ 0 HPOINT,
              d2 s2.trace
                  (.ledc_set_duty_and_update c.timer.speed_mode c.instance_ 0 HPOINT)
                == 0⟩]) := by
  intro d s tok tm pin c h
  have hv := Channel.new_ok_value d s tok tm pin c h
  subst hv
  exact ⟨rfl, fun s2 => rfl, fun d2 s2 => rfl⟩

/-- C10 witness at concrete inputs. -/
theorem c10_new_cached_duty_zero_witness :
    (⟨0, tm0, 1, 0⟩ : Channel).duty = 0 ∧
    Channel.get_duty initState ⟨0, tm0, 1, 0⟩ = (initState, .ok 0) :=
  ⟨(c10_new_cached_duty_zero dAllOk initState 0 tm0 1 ⟨0, tm0, 1, 0⟩ rfl).1,
   (c10_new_cached_duty_zero dAllOk initState 0 tm0 1 ⟨0, tm0, 1, 0⟩ rfl).2.1 initState⟩

end Ledc
